import Mathlib

/-!
Shallow embedding of the mqtt-to-http-bridge core (src/bridge.js, src/config.js,
src/index.js) and proofs about its spec.

Modelling conventions:
* JavaScript objects live in an explicit task store: `BridgeState.tasks` is the
  heap of `queueMsg` objects, and queues hold task ids (indices into the store),
  so the aliasing of one mutable `queueMsg` across several queues is represented
  faithfully.
* `setTimeout` calls are recorded in `BridgeState.timers`; `fireTimer` runs the
  head callback.
* `Date.now()` is passed in as the parameter `now`; the MQTT payload is passed
  as the already UTF-8-decoded string (`message.toString()` on a Buffer).
* fastq's `length()` is the number of pending (not yet popped) tasks of a queue;
  `popTask` models a worker pulling the head task for delivery.
-/

namespace Bridge

/-- The `queueMsg.data` object built in `messageReceived`:
`{ topic: topic, message: message.toString(), time: Date.now() }`. -/
structure MsgData where
  topic : String
  message : String
  time : Nat
deriving Repr, DecidableEq

/-- The `queueMsg` object: `{ data: {...}, attempts: 0 }`. -/
structure QueueMsg where
  data : MsgData
  attempts : Nat
deriving Repr, DecidableEq

instance : Inhabited QueueMsg := ⟨⟨⟨"", "", 0⟩, 0⟩⟩

/-- The subset of a validated bridge configuration consumed by `bridge.js`. -/
structure Config where
  concurrency : Nat
  maxAttempts : Nat
  backoffMultiplier : Nat
  timeout : Nat
  maxQueueLength : Nat
  maxBrokerConnectWait : Nat
  brokerConnectBackoffMultiplier : Nat
deriving Repr, DecidableEq

/-- A scheduled `setTimeout(() => queue.push(queueMsg), timeout)` from `requeue`:
(timeout in ms, target endpoint, id of the queued message object). -/
structure Timer where
  timeout : Nat
  endpoint : String
  taskId : Nat
deriving Repr, DecidableEq

/-- State of one bridge instance: the heap of `queueMsg` objects, the
per-endpoint pending queues (`queues` in `bridge.js`, holding references =
task ids), the timers scheduled by `requeue`, and `messagesCount`. -/
structure BridgeState where
  tasks : List QueueMsg
  queues : List (String × List Nat)
  timers : List Timer
  messagesCount : Nat
deriving Repr, DecidableEq

/-- Length of the pending queue of `endpoint` (fastq `length()`); 0 when the
endpoint has no queue. -/
def queueLen (s : BridgeState) (endpoint : String) : Nat :=
  ((s.queues.find? (fun eq => eq.1 == endpoint)).map (fun eq => eq.2.length)).getD 0

/-- `messageReceived(log, config, queues, topic, message)`: builds one
`queueMsg` (shared by all endpoints) and pushes it into every queue whose
`length()` is below `config.maxQueueLength`; otherwise the message is dropped
for that endpoint and the queue is left unchanged. -/
def messageReceived (cfg : Config) (s : BridgeState) (topic message : String)
    (now : Nat) : BridgeState :=
  let queueMsg : QueueMsg := { data := { topic := topic, message := message, time := now },
                               attempts := 0 }
  let tid := s.tasks.length
  { s with
    tasks := s.tasks ++ [queueMsg],
    queues := s.queues.map (fun eq =>
      if eq.2.length < cfg.maxQueueLength then (eq.1, eq.2 ++ [tid]) else eq) }

/-- `requeue(log, config, queues, httpEndpoint, queueMsg)`: when
`queueMsg.attempts < config.maxAttempts - 1`, computes
`timeout = backoffMultiplier ^ attempts * 1000`, schedules
`queue.push(queueMsg)` after `timeout`, increments `queueMsg.attempts`
immediately, and returns the timeout; otherwise drops the message and returns
`undefined` (`none`). -/
def requeue (cfg : Config) (s : BridgeState) (endpoint : String) (tid : Nat) :
    BridgeState × Option Nat :=
  let task := s.tasks.getD tid default
  if task.attempts < cfg.maxAttempts - 1 then
    let timeout := cfg.backoffMultiplier ^ task.attempts * 1000
    ({ s with
        timers := s.timers ++ [⟨timeout, endpoint, tid⟩],
        tasks := s.tasks.set tid { task with attempts := task.attempts + 1 } },
     some timeout)
  else
    (s, none)

/-- The body of the `setTimeout` callback in `requeue`: `queue.push(queueMsg)`,
with no capacity check. -/
def pushToQueue (queues : List (String × List Nat)) (endpoint : String) (tid : Nat) :
    List (String × List Nat) :=
  queues.map (fun eq => if eq.1 == endpoint then (eq.1, eq.2 ++ [tid]) else eq)

/-- Fire the earliest pending timer: run its `queue.push(queueMsg)` callback. -/
def fireTimer (s : BridgeState) : BridgeState :=
  match s.timers with
  | [] => s
  | t :: rest => { s with queues := pushToQueue s.queues t.endpoint t.taskId,
                          timers := rest }

/-- A fastq worker pulls the head task of an endpoint's pending queue to
deliver it (the task leaves `length()` while in flight). -/
def popTask (s : BridgeState) (endpoint : String) : BridgeState × Option Nat :=
  match (s.queues.find? (fun eq => eq.1 == endpoint)).map (fun eq => eq.2) with
  | some (tid :: _) =>
    ({ s with queues := s.queues.map (fun eq =>
        if eq.1 == endpoint then (eq.1, eq.2.tail) else eq) }, some tid)
  | _ => (s, none)

/-- Outcome of one `axios.post` as observed by `bridgeWorker`: the promise
resolved (2xx under axios defaults), or rejected with a response carrying a
status, or rejected with no response at all (network error, timeout). -/
inductive HttpResult where
  | success
  | errorWithStatus (status : Nat)
  | noResponse
deriving Repr, DecidableEq

/-- `bridgeWorker`'s classification of a failed attempt, extracted from its
`catch` branch: requeue when there is no response, or when the response status
is 429 or ≥ 500. -/
def isRetryableResult : HttpResult → Bool
  | .success => false
  | .errorWithStatus status => status == 429 || 500 ≤ status
  | .noResponse => true

/-- `bridgeWorker(log, config, queues, httpEndpoint, queueMsg, done)` after the
HTTP attempt finished with result `r`: on success nothing happens; on an error
with a response, `requeue` is called exactly when the status is 429 or ≥ 500;
on an error without a response, `requeue` is always called. -/
def bridgeWorker (cfg : Config) (s : BridgeState) (endpoint : String) (tid : Nat)
    (r : HttpResult) : BridgeState :=
  match r with
  | .success => s
  | .errorWithStatus status =>
    if status = 429 ∨ 500 ≤ status then (requeue cfg s endpoint tid).1 else s
  | .noResponse => (requeue cfg s endpoint tid).1

/-- The HTTP request issued by `bridgeWorker`:
`axios.post(httpEndpoint, queueMsg.data, { ..., headers: { 'content-type': 'application/json' } })`. -/
structure PostRequest where
  url : String
  body : MsgData
  contentType : String
deriving Repr, DecidableEq

/-- The request `bridgeWorker` sends for task `tid` to `endpoint`. -/
def deliveryRequest (s : BridgeState) (endpoint : String) (tid : Nat) : PostRequest :=
  { url := endpoint,
    body := (s.tasks.getD tid default).data,
    contentType := "application/json" }

/-- The `message` event handler installed by the bridge:
`messagesCount++; messageReceived(log, config, queues, topic, message)`. -/
def onBrokerMessage (cfg : Config) (s : BridgeState) (topic message : String)
    (now : Nat) : BridgeState :=
  messageReceived cfg { s with messagesCount := s.messagesCount + 1 } topic message now

/-- `getMessageCount()` accessor of the bridge. -/
def getMessageCount (s : BridgeState) : Nat :=
  s.messagesCount

/-- A sequence of broker `message` events processed in order. -/
def processEvents (cfg : Config) : BridgeState → List (String × String × Nat) → BridgeState
  | s, [] => s
  | s, e :: rest => processEvents cfg (onBrokerMessage cfg s e.1 e.2.1 e.2.2) rest

/-!
Broker connection (`connectToBroker` in `bridge.js`): the promise executor
only ever calls `resolve`, so `ConnectOutcome` has no rejection constructor.
The loop is modelled with explicit fuel (number of connect attempts allowed to
run) and an oracle `ok k` giving the outcome of the k-th `mqtt.connectAsync`
call; `retrying` means the fuel ran out with the loop still going.
-/

/-- The backoff computed in the `catch` branch of `attemptConnection`:
`timeout = brokerConnectBackoffMultiplier ^ attempt * 1000`, then clamped to
`maxBrokerConnectWait` when it exceeds it. -/
def brokerTimeout (cfg : Config) (attempt : Nat) : Nat :=
  let timeout := cfg.brokerConnectBackoffMultiplier ^ attempt * 1000
  if timeout > cfg.maxBrokerConnectWait then cfg.maxBrokerConnectWait else timeout

/-- Result of running the connect loop for a bounded number of attempts:
either the promise resolved after `failedAttempts` failures (with the list of
backoff delays slept so far), or the loop is still retrying. -/
inductive ConnectOutcome where
  | connected (failedAttempts : Nat) (delays : List Nat)
  | retrying (failedAttempts : Nat) (delays : List Nat)
deriving Repr, DecidableEq

/-- `attemptConnection` unrolled: try attempt number `attempt`; on failure
schedule the next attempt after `brokerTimeout cfg attempt` and increment the
counter. -/
def connectLoop (cfg : Config) (ok : Nat → Bool) :
    Nat → Nat → List Nat → ConnectOutcome
  | 0, attempt, delays => .retrying attempt delays
  | fuel + 1, attempt, delays =>
    if ok attempt then .connected attempt delays
    else connectLoop cfg ok fuel (attempt + 1) (delays ++ [brokerTimeout cfg attempt])

/-- `connectToBroker(log, config)` with `attempt = 0`, run for `fuel` attempts. -/
def connectToBroker (cfg : Config) (ok : Nat → Bool) (fuel : Nat) : ConnectOutcome :=
  connectLoop cfg ok fuel 0 []

/-!
Subscription bootstrap (`subscribeToTopics` in `bridge.js`) and the startup
flow of `index.js`: the subscribe error thrown by the bridge factory rejects
its promise, and `index.js` handles that rejection with
`console.log(...); process.exit(1)`.
-/

/-- `config.topics.map((topic) => mqttClient.subscribe(topic))`: each topic is
subscribed exactly once, in one batch; `sub t` is the broker client's outcome
for topic `t`. -/
def subscribeBatch (topics : List String) (sub : String → Except String Unit) :
    List (String × Except String Unit) :=
  topics.map (fun t => (t, sub t))

/-- True on `Except.ok`. -/
def isOkResult : Except String Unit → Bool
  | .ok _ => true
  | .error _ => false

/-- `subscribeToTopics(config, mqttClient)`: `Promise.all` over the batch;
if any subscription fails, throws
`Failed to subscribe to all topics on <endpoint>. Reason: <message>`. -/
def subscribeToTopics (mqttEndpoint : String) (topics : List String)
    (sub : String → Except String Unit) : Except String Unit :=
  match (subscribeBatch topics sub).find? (fun p => !(isOkResult p.2)) with
  | some (_, .error msg) =>
    .error ("Failed to subscribe to all topics on " ++ mqttEndpoint ++ ". Reason: " ++ msg)
  | _ => .ok ()

/-- What `index.js` does with one bridge unit after the broker connection
succeeded: run the subscription bootstrap; a thrown error rejects the factory
promise and the `.catch` handler exits the process. -/
inductive StartupResult where
  | started
  | failedFatal (msg : String)
deriving Repr, DecidableEq

/-- The part of the bridge factory / `index.js` startup that C8 is about. -/
def bridgeStartup (mqttEndpoint : String) (topics : List String)
    (sub : String → Except String Unit) : StartupResult :=
  match subscribeToTopics mqttEndpoint topics sub with
  | .ok _ => .started
  | .error msg => .failedFatal msg

end Bridge

namespace BridgeConfig

/-!
Shallow embedding of the per-bridge integer-field validation and defaulting in
`src/config.js`. Supplied JavaScript values are modelled as: absent/`undefined`,
an integer number, or a non-integer number (e.g. `1.5`; such a value is nonzero
and hence truthy). Strings and `NaN` are not needed by the claims.
-/

/-- A supplied configuration value. -/
inductive ConfigValue where
  | undefined
  | intVal (i : Int)
  | nonIntNumber
deriving Repr, DecidableEq

/-- `isValidNumber(num)`: `undefined` is valid (replaced by a default later);
otherwise requires `Number.isInteger(num) && num > 0`. -/
def isValidNumber : ConfigValue → Bool
  | .undefined => true
  | .intVal i => i > 0
  | .nonIntNumber => false

/-- The integer fields of one `[bridges.<name>]` table that the claims are
about. Both spellings `backOffMultiplier` and `backoffMultiplier` are possible
keys of the JavaScript object, and the source uses both. -/
structure RawBridgeConfig where
  concurrency : ConfigValue
  maxAttempts : ConfigValue
  backOffMultiplier : ConfigValue
  backoffMultiplier : ConfigValue
  maxQueueLength : ConfigValue
  timeout : ConfigValue
  maxBrokerConnectWait : ConfigValue
  brokerConnectBackoffMultiplier : ConfigValue
deriving Repr, DecidableEq

/-- The `integerConfigFields` list of `config.js`, verbatim (note the
capital O in `backOffMultiplier`). -/
def integerConfigFields : List String :=
  ["concurrency", "maxAttempts", "backOffMultiplier", "maxQueueLength",
   "timeout", "maxBrokerConnectWait", "brokerConnectBackoffMultiplier"]

/-- JavaScript bracket access `bridge[field]`; a key the object does not have
yields `undefined`. -/
def getConfigField (b : RawBridgeConfig) : String → ConfigValue
  | "concurrency" => b.concurrency
  | "maxAttempts" => b.maxAttempts
  | "backOffMultiplier" => b.backOffMultiplier
  | "backoffMultiplier" => b.backoffMultiplier
  | "maxQueueLength" => b.maxQueueLength
  | "timeout" => b.timeout
  | "maxBrokerConnectWait" => b.maxBrokerConnectWait
  | "brokerConnectBackoffMultiplier" => b.brokerConnectBackoffMultiplier
  | _ => .undefined

/-- JavaScript `value || defaultValue` on the modelled values: `undefined` and
`0` are falsy; any other modelled number is truthy. -/
def jsOr (v : ConfigValue) (d : Int) : ConfigValue :=
  match v with
  | .undefined => .intVal d
  | .intVal i => if i = 0 then .intVal d else .intVal i
  | .nonIntNumber => .nonIntNumber

/-- The per-bridge portion of `module.exports` in `config.js`: validate every
field of `integerConfigFields` with `isValidNumber` (throwing on the first
invalid one), then assign defaults with `||`. The key `backOffMultiplier` is
validated but never defaulted; the key `backoffMultiplier` is defaulted but
never validated. -/
def validateBridgeConfig (b : RawBridgeConfig) : Except String RawBridgeConfig :=
  match integerConfigFields.find? (fun f => !(isValidNumber (getConfigField b f))) with
  | some f => .error ("Invalid value for " ++ f ++ ". Value must be an integer greater than 0.")
  | none => .ok { b with
      concurrency := jsOr b.concurrency 10,
      maxAttempts := jsOr b.maxAttempts 5,
      timeout := jsOr b.timeout 60000,
      backoffMultiplier := jsOr b.backoffMultiplier 2,
      maxQueueLength := jsOr b.maxQueueLength 1000,
      maxBrokerConnectWait := jsOr b.maxBrokerConnectWait 300000,
      brokerConnectBackoffMultiplier := jsOr b.brokerConnectBackoffMultiplier 2 }

/-- A raw bridge config with every integer field left unset. -/
def allUnset : RawBridgeConfig :=
  { concurrency := .undefined, maxAttempts := .undefined,
    backOffMultiplier := .undefined, backoffMultiplier := .undefined,
    maxQueueLength := .undefined, timeout := .undefined,
    maxBrokerConnectWait := .undefined, brokerConnectBackoffMultiplier := .undefined }

/-- A bridge config that explicitly supplies `backoffMultiplier = -1` — the
spelling consumed by `bridge.js` — and leaves every other field unset. -/
def backoffSuppliedInvalid : RawBridgeConfig :=
  { allUnset with backoffMultiplier := .intVal (-1) }

/-- **C6.** The validation slip: `-1` is invalid by the code's own
`isValidNumber`, yet a config explicitly supplying `backoffMultiplier = -1`
passes `config.js` without an error, and `-1` — not the documented default 2 —
survives as the value handed to the bridge, because the validated field list
spells the key `backOffMultiplier` while the consumed and defaulted key is
`backoffMultiplier`; the other integer fields (here: `concurrency`) are indeed
fatally rejected when explicitly supplied with a non-positive value. -/
theorem backoff_multiplier_not_validated :
    isValidNumber (.intVal (-1)) = false ∧
    validateBridgeConfig backoffSuppliedInvalid =
      .ok { concurrency := .intVal 10, maxAttempts := .intVal 5,
            backOffMultiplier := .undefined, backoffMultiplier := .intVal (-1),
            maxQueueLength := .intVal 1000, timeout := .intVal 60000,
            maxBrokerConnectWait := .intVal 300000,
            brokerConnectBackoffMultiplier := .intVal 2 } ∧
    validateBridgeConfig { allUnset with concurrency := .intVal (-1) } =
      .error "Invalid value for concurrency. Value must be an integer greater than 0." :=
  ⟨rfl, rfl, rfl⟩

end BridgeConfig

namespace Bridge

/-! ### Helper lemmas -/

/-- `requeue` never touches the `data` object of any stored task: only the
`attempts` field of the requeued task is modified. -/
lemma requeue_preserves_data (cfg : Config) (s : BridgeState) (e : String)
    (tid tid' : Nat) :
    ((requeue cfg s e tid).1.tasks.getD tid' default).data =
      (s.tasks.getD tid' default).data := by
  unfold requeue
  by_cases hlt : (s.tasks.getD tid default).attempts < cfg.maxAttempts - 1
  · simp only [hlt, if_pos]
    by_cases htt : tid' = tid
    · subst htt
      by_cases hrange : tid' < s.tasks.length
      · simp only [List.getD_eq_getElem?_getD, List.getElem?_set_eq_of_lt _ hrange,
          List.getElem?_eq_getElem hrange, Option.getD_some]
      · rw [List.set_eq_of_length_le (by omega)]
    · simp only [List.getD_eq_getElem?_getD,
        List.getElem?_set_ne (show tid ≠ tid' from fun h => htt h.symm)]
  · simp only [hlt, if_neg, ite_false]

/-- When the requeued task exists and is below the attempt cap, `requeue`
increments its `attempts` field in the shared store. -/
lemma requeue_increments_attempts (cfg : Config) (s : BridgeState) (e : String)
    (tid : Nat) (htid : tid < s.tasks.length)
    (hlt : (s.tasks.getD tid default).attempts < cfg.maxAttempts - 1) :
    ((requeue cfg s e tid).1.tasks.getD tid default).attempts =
      (s.tasks.getD tid default).attempts + 1 := by
  simp only [requeue, if_pos hlt]
  simp only [List.getD_eq_getElem?_getD, List.getElem?_set_eq_of_lt _ htid,
    Option.getD_some]

/-- The task appended by `messageReceived` is read back from the store. -/
lemma messageReceived_new_task (cfg : Config) (s : BridgeState)
    (topic msg : String) (now : Nat) :
    (messageReceived cfg s topic msg now).tasks.getD s.tasks.length default =
      ⟨⟨topic, msg, now⟩, 0⟩ := by
  simp only [messageReceived, List.getD_eq_getElem?_getD, List.getElem?_concat_length,
    Option.getD_some]

/-- How `messageReceived` transforms the queue at index `i`. -/
lemma messageReceived_queue_at (cfg : Config) (s : BridgeState)
    (topic msg : String) (now : Nat) (i : Nat) (hi : i < s.queues.length) :
    (messageReceived cfg s topic msg now).queues.getD i ("", []) =
      (if (s.queues.getD i ("", [])).2.length < cfg.maxQueueLength
       then ((s.queues.getD i ("", [])).1,
             (s.queues.getD i ("", [])).2 ++ [s.tasks.length])
       else s.queues.getD i ("", [])) := by
  simp only [messageReceived, List.getD_eq_getElem?_getD, List.getElem?_map,
    List.getElem?_eq_getElem hi, Option.map_some', Option.getD_some]

/-! ### Claim theorems -/

/-- **C3.** Retry backoff protocol of `requeue`: when the task has been
requeued `k` times (`attempts = k`) and `k < maxAttempts - 1`, the k-th requeue
returns a delay of exactly `backoffMultiplier ^ k * 1000` milliseconds,
schedules the push after that delay, and increments `attempts` to `k + 1` at
schedule time (the pending queue itself is untouched until the timer fires);
when `k ≥ maxAttempts - 1` — i.e. after exactly `maxAttempts - 1` requeues —
the task is abandoned: the state is unchanged (no timer scheduled, no attempts
increment) and `requeue` returns `none` (JavaScript `undefined`); for
`backoffMultiplier ≥ 1` the delays are monotonically non-decreasing in `k`. -/
theorem requeue_backoff_protocol (cfg : Config) (s : BridgeState) (e : String)
    (tid k : Nat) (htid : tid < s.tasks.length)
    (hatt : (s.tasks.getD tid default).attempts = k) :
    (k < cfg.maxAttempts - 1 →
       (requeue cfg s e tid).2 = some (cfg.backoffMultiplier ^ k * 1000) ∧
       ((requeue cfg s e tid).1.tasks.getD tid default).attempts = k + 1 ∧
       (requeue cfg s e tid).1.timers =
         s.timers ++ [⟨cfg.backoffMultiplier ^ k * 1000, e, tid⟩] ∧
       (requeue cfg s e tid).1.queues = s.queues) ∧
    (¬ k < cfg.maxAttempts - 1 → requeue cfg s e tid = (s, none)) ∧
    (1 ≤ cfg.backoffMultiplier →
       cfg.backoffMultiplier ^ k * 1000 ≤ cfg.backoffMultiplier ^ (k + 1) * 1000) := by
  refine ⟨fun hk => ?_, fun hk => ?_, fun hm => ?_⟩
  · have hcond : (s.tasks.getD tid default).attempts < cfg.maxAttempts - 1 := by
      rw [hatt]; exact hk
    refine ⟨?_, ?_, ?_, ?_⟩
    · simp only [requeue, if_pos hcond]
      rw [hatt]
    · simp only [requeue, if_pos hcond]
      simp only [List.getD_eq_getElem?_getD, List.getElem?_set_eq_of_lt _ htid,
        Option.getD_some]
      rw [← List.getD_eq_getElem?_getD, hatt]
    · simp only [requeue, if_pos hcond]
      rw [hatt]
    · simp only [requeue, if_pos hcond]
  · have hcond : ¬ (s.tasks.getD tid default).attempts < cfg.maxAttempts - 1 := by
      rw [hatt]; exact hk
    simp only [requeue, if_neg hcond]
  · have : cfg.backoffMultiplier ^ k ≤ cfg.backoffMultiplier ^ (k + 1) :=
      Nat.pow_le_pow_right hm (Nat.le_succ k)
    exact Nat.mul_le_mul_right 1000 this

/-- **C3 witness.** -/
theorem requeue_backoff_protocol_witness :
    (requeue ⟨10, 5, 2, 60000, 1000, 300000, 2⟩
        ⟨[⟨⟨"t", "m", 50⟩, 0⟩], [("e", [0])], [], 0⟩ "e" 0).2 = some 1000 ∧
    ((requeue ⟨10, 5, 2, 60000, 1000, 300000, 2⟩
        ⟨[⟨⟨"t", "m", 50⟩, 0⟩], [("e", [0])], [], 0⟩ "e" 0).1.tasks.getD 0
          default).attempts = 1 := by
  have h := (requeue_backoff_protocol ⟨10, 5, 2, 60000, 1000, 300000, 2⟩
      ⟨[⟨⟨"t", "m", 50⟩, 0⟩], [("e", [0])], [], 0⟩ "e" 0 0
      (by decide) (by rfl)).1 (by decide)
  exact ⟨h.1, h.2.1⟩

/-- **C4.** Outcome classification of `bridgeWorker` is a deterministic,
endpoint-agnostic function of the HTTP result: the worker hands the task to
`requeue` exactly when the result is retryable, and a result is retryable if
and only if no response was received at all, or a response was received whose
status is 429 or ≥ 500; on any other result the state is returned unchanged
(the task completes finally: no requeue, no attempts increment, no timer). -/
theorem bridgeWorker_classification (cfg : Config) (s : BridgeState) (e : String)
    (tid : Nat) (r : HttpResult) :
    bridgeWorker cfg s e tid r =
      (if isRetryableResult r then (requeue cfg s e tid).1 else s) ∧
    (isRetryableResult r = true ↔
      r = .noResponse ∨
        ∃ status, r = .errorWithStatus status ∧ (status = 429 ∨ 500 ≤ status)) := by
  cases r with
  | success => simp [bridgeWorker, isRetryableResult]
  | errorWithStatus status =>
    constructor
    · by_cases h : status = 429 ∨ 500 ≤ status
      · have hb : (status == 429 || decide (500 ≤ status)) = true := by
          rcases h with h | h
          · simp [h]
          · simp [h]
        simp [bridgeWorker, isRetryableResult, h, hb]
      · have hb : (status == 429 || decide (500 ≤ status)) = false := by
          rcases not_or.mp h with ⟨h1, h2⟩
          simp only [Bool.or_eq_false_iff, beq_eq_false_iff_ne, ne_eq,
            decide_eq_false_iff_not]
          exact ⟨h1, h2⟩
        simp [bridgeWorker, isRetryableResult, h, hb]
    · simp only [isRetryableResult, Bool.or_eq_true, beq_iff_eq, decide_eq_true_eq]
      constructor
      · intro h
        exact Or.inr ⟨status, rfl, h⟩
      · rintro (h | ⟨st, hst, h⟩)
        · exact absurd h (by simp)
        · cases hst
          exact h
  | noResponse => simp [bridgeWorker, isRetryableResult]

/-- **C5.** Wire contract: for every endpoint, the delivery of the task built
by `messageReceived` POSTs a body that is exactly the three-field record
`{topic, message, time := now}` with content-type `application/json`; `requeue`
never changes a task's `data`, so the identical `time` (captured once at
receipt) is used for every configured endpoint and for every retry attempt of
the same message. -/
theorem delivery_wire_contract (cfg : Config) (s : BridgeState)
    (topic msg : String) (now : Nat) (e e2 : String) (tid : Nat) :
    deliveryRequest (messageReceived cfg s topic msg now) e s.tasks.length =
      ⟨e, ⟨topic, msg, now⟩, "application/json"⟩ ∧
    ((requeue cfg s e2 tid).1.tasks.getD tid default).data =
      (s.tasks.getD tid default).data ∧
    (deliveryRequest s e tid).body = (s.tasks.getD tid default).data ∧
    (deliveryRequest s e tid).contentType = "application/json" := by
  refine ⟨?_, requeue_preserves_data cfg s e2 tid tid, rfl, rfl⟩
  simp only [deliveryRequest, messageReceived_new_task]

/-- **C10.** The bridge's message counter: `messageReceived` (and hence every
admission decision and drop) never changes `messagesCount`; the installed
`message`-event handler increments it by exactly one per inbound broker
message, before admission runs; therefore over any sequence of broker message
events, `getMessageCount` grows by exactly the number of events, independent of
the configured endpoints, queue fill states, and delivery outcomes. -/
theorem message_counter_exact (cfg : Config) (s : BridgeState)
    (topic msg : String) (now : Nat) (evts : List (String × String × Nat)) :
    (messageReceived cfg s topic msg now).messagesCount = s.messagesCount ∧
    getMessageCount (onBrokerMessage cfg s topic msg now) = getMessageCount s + 1 ∧
    getMessageCount (processEvents cfg s evts) = getMessageCount s + evts.length := by
  refine ⟨rfl, rfl, ?_⟩
  induction evts generalizing s with
  | nil => rfl
  | cons e rest ih =>
    have h := ih (onBrokerMessage cfg s e.1 e.2.1 e.2.2)
    have h2 : getMessageCount (onBrokerMessage cfg s e.1 e.2.1 e.2.2) =
        s.messagesCount + 1 := rfl
    simp only [processEvents]
    rw [h, h2]
    simp only [getMessageCount, List.length_cons]
    omega

/-! ### Concrete executions used as counterexamples and witnesses -/

/-- Configuration with `maxQueueLength = 1` used for the C1 execution. -/
def c1Cfg : Config := ⟨10, 5, 2, 60000, 1, 300000, 2⟩

/-- Initial C1 state: one endpoint `"e"` with an empty queue. -/
def c1S0 : BridgeState := ⟨[], [("e", [])], [], 0⟩

/-- First message admitted (queue becomes `[0]`). -/
def c1S1 : BridgeState := messageReceived c1Cfg c1S0 "t" "m1" 100

/-- A worker pops task 0 for delivery (queue becomes `[]`). -/
def c1S2 : BridgeState := (popTask c1S1 "e").1

/-- Second message admitted while task 0 is in flight (queue `[1]`, full). -/
def c1S3 : BridgeState := messageReceived c1Cfg c1S2 "t" "m2" 101

/-- Task 0 fails retryably; `requeue` schedules its re-admission. -/
def c1S4 : BridgeState := (requeue c1Cfg c1S3 "e" 0).1

/-- The retry timer fires: `queue.push` runs with no capacity check. -/
def c1S5 : BridgeState := fireTimer c1S4

/-- **C1 counterexample.** In the execution `c1S0 → … → c1S5` (admit, pop for
delivery, admit, retryable failure, retry timer fires) the retried task is
re-admitted into a queue that is already at `maxQueueLength = 1`, giving a
pending length of 2: the retry re-enqueue path applies no capacity check, so
`length() ≤ maxQueueLength` does not hold at every observable point. -/
theorem retry_overflows_queue_counterexample :
    c1Cfg.maxQueueLength = 1 ∧
    queueLen c1S3 "e" = 1 ∧
    (requeue c1Cfg c1S3 "e" 0).2 = some 1000 ∧
    queueLen c1S5 "e" = 2 := by decide

/-- **C1 (amended).** First admission of a new message applies the capacity
check: `messageReceived` preserves `length() ≤ maxQueueLength` on every queue,
and a message arriving at a full queue is dropped without being queued and
without altering that queue; re-admission of a retried task, however, applies
no capacity check — when the retry timer fires, the push is appended to the
matching queue unconditionally, so the bound can be exceeded by retries. -/
theorem admission_gate_amended (cfg : Config) (s : BridgeState)
    (topic msg : String) (now : Nat) (i : Nat) (hi : i < s.queues.length)
    (hinv : ∀ p ∈ s.queues, p.2.length ≤ cfg.maxQueueLength) :
    (∀ p ∈ (messageReceived cfg s topic msg now).queues,
       p.2.length ≤ cfg.maxQueueLength) ∧
    (¬ (s.queues.getD i ("", [])).2.length < cfg.maxQueueLength →
       (messageReceived cfg s topic msg now).queues.getD i ("", []) =
         s.queues.getD i ("", [])) ∧
    (∀ (s2 : BridgeState) (t : Timer) (rest : List Timer),
       s2.timers = t :: rest →
       ∀ j, j < s2.queues.length → (s2.queues.getD j ("", [])).1 = t.endpoint →
         ((fireTimer s2).queues.getD j ("", [])).2 =
           (s2.queues.getD j ("", [])).2 ++ [t.taskId]) := by
  refine ⟨?_, ?_, ?_⟩
  · intro p hp
    simp only [messageReceived, List.mem_map] at hp
    obtain ⟨a, ha, hfa⟩ := hp
    by_cases hc : a.2.length < cfg.maxQueueLength
    · rw [if_pos hc] at hfa
      rw [← hfa]
      simpa using hc
    · rw [if_neg hc] at hfa
      rw [← hfa]
      exact hinv a ha
  · intro hfull
    rw [messageReceived_queue_at cfg s topic msg now i hi, if_neg hfull]
  · intro s2 t rest ht j hj hkey
    cases s2 with
    | mk tasks2 queues2 timers2 mc2 =>
      simp only at ht hj hkey
      subst ht
      simp only [fireTimer, pushToQueue, List.getD_eq_getElem?_getD, List.getElem?_map,
        List.getElem?_eq_getElem hj, Option.map_some', Option.getD_some]
      simp only [List.getD_eq_getElem?_getD, List.getElem?_eq_getElem hj,
        Option.getD_some] at hkey
      rw [if_pos (by simpa [beq_iff_eq] using hkey)]

/-- **C1 witness.** -/
theorem admission_gate_amended_witness :
    (∀ p ∈ (messageReceived c1Cfg c1S3 "t" "m3" 102).queues,
        p.2.length ≤ c1Cfg.maxQueueLength) ∧
    (messageReceived c1Cfg c1S3 "t" "m3" 102).queues.getD 0 ("", []) =
      c1S3.queues.getD 0 ("", []) := by
  have h := admission_gate_amended c1Cfg c1S3 "t" "m3" 102 0 (by decide) (by decide)
  exact ⟨h.1, h.2.1 (by decide)⟩

/-- Configuration used for the C2 execution. -/
def c2Cfg : Config := ⟨10, 5, 2, 60000, 1000, 300000, 2⟩

/-- Initial C2 state: two endpoints, both queues empty. -/
def c2S0 : BridgeState := ⟨[], [("e1", []), ("e2", [])], [], 0⟩

/-- One inbound message fanned out to both endpoints. -/
def c2S1 : BridgeState := messageReceived c2Cfg c2S0 "t" "m" 50

/-- A retryable failure of the task processed for endpoint `"e1"`. -/
def c2S2 : BridgeState := (requeue c2Cfg c2S1 "e1" 0).1

/-- **C2 counterexample.** After one inbound message, both endpoint queues
reference the *same* task object (id 0) — the tasks are not distinct — and a
single retryable failure on endpoint `"e1"` raises the `attempts` counter
observed through endpoint `"e2"`'s queued task from 0 to 1: the counter is
shared, not owned exclusively by one endpoint's queue. -/
theorem shared_task_counterexample :
    c2S1.queues = [("e1", [0]), ("e2", [0])] ∧
    (c2S1.tasks.getD 0 default).attempts = 0 ∧
    c2S2.queues = [("e1", [0]), ("e2", [0])] ∧
    (c2S2.tasks.getD 0 default).attempts = 1 := by decide

/-- **C2 (amended).** For every inbound broker message the dispatcher builds
exactly one envelope and exactly one QueuedTask (attempts starting at 0), and
pushes that same task, by reference, into every configured endpoint's queue
(here: every queue with room; each queue's last element is the same task id);
consequently a retryable failure processed for any one endpoint increments the
single shared attempts counter, which is the count observed by every other
endpoint's queued task for the same message. -/
theorem shared_task_amended (cfg : Config) (s : BridgeState)
    (topic msg : String) (now : Nat)
    (hroom : ∀ p ∈ s.queues, p.2.length < cfg.maxQueueLength)
    (hmax : 2 ≤ cfg.maxAttempts) :
    (messageReceived cfg s topic msg now).tasks =
      s.tasks ++ [⟨⟨topic, msg, now⟩, 0⟩] ∧
    (∀ p ∈ (messageReceived cfg s topic msg now).queues,
       p.2.getLast? = some s.tasks.length) ∧
    ((messageReceived cfg s topic msg now).tasks.getD s.tasks.length
        default).attempts = 0 ∧
    (∀ e2, ((requeue cfg (messageReceived cfg s topic msg now) e2
        s.tasks.length).1.tasks.getD s.tasks.length default).attempts = 1) := by
  have hnew := messageReceived_new_task cfg s topic msg now
  refine ⟨rfl, ?_, ?_, ?_⟩
  · intro p hp
    simp only [messageReceived, List.mem_map] at hp
    obtain ⟨a, ha, hfa⟩ := hp
    rw [if_pos (hroom a ha)] at hfa
    rw [← hfa]
    exact List.getLast?_concat _
  · rw [hnew]
  · intro e2
    have hlen : s.tasks.length < (messageReceived cfg s topic msg now).tasks.length := by
      simp [messageReceived]
    rw [requeue_increments_attempts cfg _ e2 s.tasks.length hlen
      (by rw [hnew]; show 0 < cfg.maxAttempts - 1; omega), hnew]

/-- **C2 witness.** -/
theorem shared_task_amended_witness :
    (∀ p ∈ (messageReceived c2Cfg c2S0 "t" "m" 50).queues,
        p.2.getLast? = some 0) ∧
    ((requeue c2Cfg (messageReceived c2Cfg c2S0 "t" "m" 50) "e1" 0).1.tasks.getD 0
        default).attempts = 1 := by
  have h := shared_task_amended c2Cfg c2S0 "t" "m" 50 (by decide) (by decide)
  exact ⟨h.2.1, h.2.2.2 "e1"⟩

/-- **C9.** Fan-out admission is independent per endpoint: the queue at
position `i` receives the new task exactly when its own length is below
`maxQueueLength`, and for two bridge states whose queues at position `i` have
the same length — however much the other queues differ (e.g. another endpoint
at capacity versus empty) — the admit/drop outcome at position `i` is the
same. -/
theorem fanout_noninterference (cfg : Config) (s1 s2 : BridgeState) (i : Nat)
    (topic1 msg1 : String) (now1 : Nat) (topic2 msg2 : String) (now2 : Nat)
    (h1 : i < s1.queues.length) (h2 : i < s2.queues.length)
    (hlen : (s1.queues.getD i ("", [])).2.length =
      (s2.queues.getD i ("", [])).2.length) :
    ((messageReceived cfg s1 topic1 msg1 now1).queues.getD i ("", [])).2 =
      (if (s1.queues.getD i ("", [])).2.length < cfg.maxQueueLength
       then (s1.queues.getD i ("", [])).2 ++ [s1.tasks.length]
       else (s1.queues.getD i ("", [])).2) ∧
    (((messageReceived cfg s1 topic1 msg1 now1).queues.getD i ("", [])).2.length =
        (s1.queues.getD i ("", [])).2.length + 1 ↔
     ((messageReceived cfg s2 topic2 msg2 now2).queues.getD i ("", [])).2.length =
        (s2.queues.getD i ("", [])).2.length + 1) := by
  have e1 := messageReceived_queue_at cfg s1 topic1 msg1 now1 i h1
  have e2 := messageReceived_queue_at cfg s2 topic2 msg2 now2 i h2
  constructor
  · rw [e1]
    by_cases hc : (s1.queues.getD i ("", [])).2.length < cfg.maxQueueLength
    · rw [if_pos hc, if_pos hc]
    · rw [if_neg hc, if_neg hc]
  · by_cases hc : (s1.queues.getD i ("", [])).2.length < cfg.maxQueueLength
    · have hc2 : (s2.queues.getD i ("", [])).2.length < cfg.maxQueueLength := by
        rw [← hlen]; exact hc
      rw [e1, e2, if_pos hc, if_pos hc2]
      simp
    · have hc2 : ¬ (s2.queues.getD i ("", [])).2.length < cfg.maxQueueLength := by
        rw [← hlen]; exact hc
      rw [e1, e2, if_neg hc, if_neg hc2]
      simp

/-- Configuration with `maxQueueLength = 2` used for the C9 witness. -/
def c9Cfg : Config := ⟨10, 5, 2, 60000, 2, 300000, 2⟩

/-- Endpoint `"A"` at capacity, endpoint `"B"` empty. -/
def c9S1 : BridgeState := ⟨[], [("A", [9, 9]), ("B", [])], [], 0⟩

/-- Endpoint `"A"` empty, endpoint `"B"` empty. -/
def c9S2 : BridgeState := ⟨[], [("A", []), ("B", [])], [], 0⟩

/-- **C9 witness.** -/
theorem fanout_noninterference_witness :
    ((messageReceived c9Cfg c9S1 "t" "m" 5).queues.getD 1 ("", [])).2.length =
        (c9S1.queues.getD 1 ("", [])).2.length + 1 ↔
    ((messageReceived c9Cfg c9S2 "t" "m" 5).queues.getD 1 ("", [])).2.length =
        (c9S2.queues.getD 1 ("", [])).2.length + 1 :=
  (fanout_noninterference c9Cfg c9S1 c9S2 1 "t" "m" 5 "t" "m" 5
    (by decide) (by decide) (by decide)).2

/-- `brokerTimeout` equals the capped exponential backoff. -/
lemma brokerTimeout_eq_min (cfg : Config) (k : Nat) :
    brokerTimeout cfg k =
      min (cfg.brokerConnectBackoffMultiplier ^ k * 1000) cfg.maxBrokerConnectWait := by
  unfold brokerTimeout
  rcases le_or_lt (cfg.brokerConnectBackoffMultiplier ^ k * 1000)
      cfg.maxBrokerConnectWait with h | h
  · rw [if_neg (by omega), min_eq_left h]
  · rw [if_pos h, min_eq_right (by omega)]

/-- Unfolding of a connect loop run that resolved: the successful attempt is
the first one for which `ok` holds, and the delays slept are exactly the
backoffs of the failed attempts, in order. -/
lemma connectLoop_connected (cfg : Config) (ok : Nat → Bool) :
    ∀ (fuel start : Nat) (ds0 : List Nat) (a : Nat) (ds : List Nat),
      connectLoop cfg ok fuel start ds0 = .connected a ds →
      ok a = true ∧ start ≤ a ∧ (∀ j, start ≤ j → j < a → ok j = false) ∧
      ds = ds0 ++ (List.range' start (a - start)).map (brokerTimeout cfg) := by
  intro fuel
  induction fuel with
  | zero =>
    intro start ds0 a ds h
    simp [connectLoop] at h
  | succ n ih =>
    intro start ds0 a ds h
    by_cases hok : ok start = true
    · rw [connectLoop, if_pos hok] at h
      obtain ⟨ha, hds⟩ : a = start ∧ ds = ds0 := by
        cases h; exact ⟨rfl, rfl⟩
      subst ha; subst hds
      refine ⟨hok, le_refl _, fun j h1 h2 => absurd h1 (by omega), ?_⟩
      simp
    · rw [connectLoop, if_neg hok] at h
      obtain ⟨hoka, hle, hfail, hds⟩ := ih (start + 1) (ds0 ++ [brokerTimeout cfg start]) a ds h
      refine ⟨hoka, by omega, ?_, ?_⟩
      · intro j h1 h2
        rcases Nat.eq_or_lt_of_le h1 with h1 | h1
        · rw [← h1]
          exact Bool.not_eq_true _ ▸ (by simpa using hok)
        · exact hfail j h1 h2
      · have hsub : a - start = (a - (start + 1)) + 1 := by omega
        rw [hds, hsub, List.range'_succ, List.map_cons, List.append_assoc,
          List.singleton_append]

/-- Unfolding of a connect loop run that exhausted its fuel: every attempt
failed, the counter equals the number of failed attempts, and the delays are
the backoffs of all attempts, in order. -/
lemma connectLoop_retrying (cfg : Config) (ok : Nat → Bool) :
    ∀ (fuel start : Nat) (ds0 : List Nat) (a : Nat) (ds : List Nat),
      connectLoop cfg ok fuel start ds0 = .retrying a ds →
      a = start + fuel ∧ (∀ j, start ≤ j → j < start + fuel → ok j = false) ∧
      ds = ds0 ++ (List.range' start fuel).map (brokerTimeout cfg) := by
  intro fuel
  induction fuel with
  | zero =>
    intro start ds0 a ds h
    obtain ⟨ha, hds⟩ : a = start ∧ ds = ds0 := by
      rw [connectLoop] at h
      cases h; exact ⟨rfl, rfl⟩
    subst ha; subst hds
    exact ⟨by omega, fun j h1 h2 => absurd h1 (by omega), by simp⟩
  | succ n ih =>
    intro start ds0 a ds h
    by_cases hok : ok start = true
    · rw [connectLoop, if_pos hok] at h
      cases h
    · rw [connectLoop, if_neg hok] at h
      obtain ⟨ha, hfail, hds⟩ := ih (start + 1) (ds0 ++ [brokerTimeout cfg start]) a ds h
      refine ⟨by omega, ?_, ?_⟩
      · intro j h1 h2
        rcases Nat.eq_or_lt_of_le h1 with h1 | h1
        · rw [← h1]
          exact Bool.not_eq_true _ ▸ (by simpa using hok)
        · exact hfail j h1 (by omega)
      · rw [hds, List.range'_succ, List.map_cons, List.append_assoc,
          List.singleton_append]

/-- **C7.** The broker connect loop: the delay scheduled after the k-th
consecutive failed attempt is `min(brokerConnectBackoffMultiplier ^ k * 1000,
maxBrokerConnectWait)` milliseconds; a resolved run resolved on the first
successful attempt, its `failedAttempts` counter counts exactly the failed
attempts before it (incremented only after failures), and its recorded delays
are precisely the capped backoffs of those failures; a run whose every attempt
failed is still retrying after any finite number of attempts — `ConnectOutcome`
has no rejection case, mirroring a promise executor that only ever resolves. -/
theorem connect_retry_indefinitely (cfg : Config) (ok : Nat → Bool)
    (fuel a k : Nat) (ds : List Nat) :
    brokerTimeout cfg k =
      min (cfg.brokerConnectBackoffMultiplier ^ k * 1000) cfg.maxBrokerConnectWait ∧
    (connectToBroker cfg ok fuel = .connected a ds →
       ok a = true ∧ (∀ j, j < a → ok j = false) ∧
       ds = (List.range a).map (brokerTimeout cfg)) ∧
    (connectToBroker cfg ok fuel = .retrying a ds →
       a = fuel ∧ (∀ j, j < fuel → ok j = false) ∧
       ds = (List.range fuel).map (brokerTimeout cfg)) := by
  refine ⟨brokerTimeout_eq_min cfg k, fun h => ?_, fun h => ?_⟩
  · obtain ⟨hok, _, hfail, hds⟩ := connectLoop_connected cfg ok fuel 0 [] a ds h
    refine ⟨hok, fun j hj => hfail j (Nat.zero_le j) hj, ?_⟩
    rw [hds]
    simp [List.range_eq_range']
  · obtain ⟨ha, hfail, hds⟩ := connectLoop_retrying cfg ok fuel 0 [] a ds h
    refine ⟨by omega, fun j hj => hfail j (Nat.zero_le j) (by omega), ?_⟩
    rw [hds]
    simp [List.range_eq_range']

/-- **C7 witness.** -/
theorem connect_retry_indefinitely_witness :
    (fun n => decide (n = 2)) 2 = true ∧
    (∀ j, j < 2 → (fun n => decide (n = 2)) j = false) ∧
    ([1000, 2000] : List Nat) =
      (List.range 2).map (brokerTimeout ⟨10, 5, 2, 60000, 1000, 300000, 2⟩) :=
  (connect_retry_indefinitely ⟨10, 5, 2, 60000, 1000, 300000, 2⟩
    (fun n => decide (n = 2)) 5 2 0 [1000, 2000]).2.1 (by decide)

/-- **C8.** Subscription bootstrap: the batch issues exactly one subscribe call
per configured topic, in order, with no retries; `subscribeToTopics` succeeds
if and only if every single subscription succeeded; and when it fails, the
bridge factory's error propagates to the process boundary — `index.js` turns
it into a fatal startup failure. -/
theorem subscribe_once_and_fatal (mqttEndpoint : String) (topics : List String)
    (sub : String → Except String Unit) :
    (subscribeBatch topics sub).map Prod.fst = topics ∧
    (subscribeToTopics mqttEndpoint topics sub = .ok () ↔
       ∀ t ∈ topics, isOkResult (sub t) = true) ∧
    (∀ msg, subscribeToTopics mqttEndpoint topics sub = .error msg →
       bridgeStartup mqttEndpoint topics sub = .failedFatal msg) := by
  refine ⟨?_, ?_, ?_⟩
  · have hcomp : (Prod.fst ∘ fun t => (t, sub t)) = id := rfl
    rw [subscribeBatch, List.map_map, hcomp, List.map_id]
  · cases hfind : (subscribeBatch topics sub).find? (fun p => !(isOkResult p.2)) with
    | none =>
      have hres : subscribeToTopics mqttEndpoint topics sub = .ok () := by
        simp only [subscribeToTopics, hfind]
      rw [hres]
      refine iff_of_true rfl ?_
      intro t ht
      have hmem : (t, sub t) ∈ subscribeBatch topics sub :=
        List.mem_map.mpr ⟨t, ht, rfl⟩
      have := List.find?_eq_none.mp hfind _ hmem
      simpa using this
    | some p =>
      obtain ⟨t0, r0⟩ := p
      have hp := List.find?_some hfind
      have hmem := List.mem_of_find?_eq_some hfind
      cases r0 with
      | ok u =>
        cases u
        simp [isOkResult] at hp
      | error m =>
        have hres : subscribeToTopics mqttEndpoint topics sub =
            .error ("Failed to subscribe to all topics on " ++ mqttEndpoint ++
              ". Reason: " ++ m) := by
          simp only [subscribeToTopics, hfind]
        rw [hres]
        refine iff_of_false (by simp) ?_
        intro hall
        obtain ⟨t, ht, heq⟩ := List.mem_map.mp hmem
        have h2 : sub t = Except.error m := (Prod.ext_iff.mp heq).2
        have := hall t ht
        rw [h2] at this
        simp [isOkResult] at this
  · intro msg h
    simp [bridgeStartup, h]

/-- **C8 witness.** -/
theorem subscribe_once_and_fatal_witness :
    bridgeStartup "mqtt://x" ["a", "b"]
        (fun t => if t == "b" then .error "boom" else .ok ()) =
      .failedFatal "Failed to subscribe to all topics on mqtt://x. Reason: boom" :=
  (subscribe_once_and_fatal "mqtt://x" ["a", "b"]
    (fun t => if t == "b" then .error "boom" else .ok ())).2.2
    "Failed to subscribe to all topics on mqtt://x. Reason: boom" (by rfl)

end Bridge
